import Mathlib

set_option autoImplicit false

/-!
Verification of the KYP credit-analyst pipeline (src/main.py).

Numeric fields are modelled over `ℚ`; Python's `round(x, 2)` is modelled as
round-half-to-even on rationals (the source leaves the rounding mode to the
host language; Python uses banker's rounding).  Dictionary lookups that the
source performs with `d[k]` are modelled as `Except`-failures carrying the
missing key, and lookups performed with `d.get(k, 0)` as `Option.getD 0`.
-/

namespace KYP

/-- Floor of a rational, written so the kernel can evaluate it (the
denominator of a `Rat` is positive, so Euclidean division of the numerator
by it is the floor). -/
def ratFloor (q : ℚ) : ℤ := q.num / (q.den : ℤ)

theorem ratFloor_eq_floor (q : ℚ) : ratFloor q = ⌊q⌋ := Rat.floor_def.symm

/-- Python `round(q)` restricted to halves resolved to the even neighbour,
as CPython does; on non-halves it agrees with ordinary rounding
`round q = ⌊q + 1/2⌋`. -/
def roundHalfEven (q : ℚ) : ℤ :=
  if q - (ratFloor q : ℚ) = 1 / 2 then
    (if ratFloor q % 2 = 0 then ratFloor q else ratFloor q + 1)
  else ratFloor (q + 1 / 2)

/-- Python `round(q, 2)`: two-decimal rounding. -/
def round2 (q : ℚ) : ℚ := (roundHalfEven (q * 100) : ℚ) / 100

/-- One year of financial figures; every key of the JSON sub-object may be
absent, as the spec's CompanyRecord allows. -/
structure YearRecord where
  current_assets : Option ℚ
  current_liabilities : Option ℚ
  revenue : Option ℚ
  net_income : Option ℚ
deriving DecidableEq

/-- The `financials` sub-object: `current_year` may be missing entirely
(the malformed-input case), `previous_year` is optional by design. -/
structure Financials where
  current_year : Option YearRecord
  previous_year : Option YearRecord
deriving DecidableEq

/-- The `company_info` sub-object; `name` is structurally required, `sector`
is optional (the source reads it with `.get("sector", "N/A")`). -/
structure CompanyInfo where
  name : String
  sector : Option String
deriving DecidableEq

/-- One input document. -/
structure CompanyRecord where
  company_info : CompanyInfo
  financials : Financials
deriving DecidableEq

/-- The dictionary returned by `calculate_ratios`. -/
structure RatioSet where
  liquidity : ℚ
  margin : ℚ
  growth : ℚ
deriving DecidableEq

/-- The only fault `calculate_ratios` can raise: a Python `KeyError` from a
direct `d[k]` lookup on a missing key. -/
inductive PyError where
  | keyError (key : String)
deriving DecidableEq

/-- Line 45 of the source:
`curr["current_assets"] / liabilities if liabilities > 0 else 0`, with
`liabilities = curr.get("current_liabilities", 0)`.  The direct lookup of
`current_assets` raises when the key is absent and the guard is taken. -/
def liquidityStep (curr : YearRecord) : Except PyError ℚ :=
  if curr.current_liabilities.getD 0 > 0 then
    match curr.current_assets with
    | some a => Except.ok (a / curr.current_liabilities.getD 0)
    | none => Except.error (PyError.keyError "current_assets")
  else Except.ok 0

/-- Line 46 of the source:
`(curr["net_income"] / revenue) * 100 if revenue > 0 else 0`, with
`revenue = curr.get("revenue", 0)`. -/
def marginStep (curr : YearRecord) : Except PyError ℚ :=
  if curr.revenue.getD 0 > 0 then
    match curr.net_income with
    | some ni => Except.ok (ni / curr.revenue.getD 0 * 100)
    | none => Except.error (PyError.keyError "net_income")
  else Except.ok 0

/-- The value `prev.get("revenue", 0)` where `prev` is
`data["financials"].get("previous_year", {})`: an absent previous year is the
empty dict, whose `.get` yields the default 0. -/
def prevRevenueOf (prev : Option YearRecord) : ℚ :=
  (prev.map fun p => p.revenue.getD 0).getD 0

/-- Lines 48-50 of the source: growth is computed only under the guard
`prev and prev.get("revenue", 0) > 0` (equivalent to `prevRevenueOf prev > 0`,
since an empty dict yields the default 0), and the computation reads
`curr["revenue"]` with a direct, fallible lookup. -/
def growthStep (curr : YearRecord) (prev : Option YearRecord) : Except PyError ℚ :=
  if prevRevenueOf prev > 0 then
    match curr.revenue with
    | some cr => Except.ok ((cr - prevRevenueOf prev) / prevRevenueOf prev * 100)
    | none => Except.error (PyError.keyError "revenue")
  else Except.ok 0

/-- The ratio engine, lines 37-56 of the source.  The first line
`curr = data["financials"]["current_year"]` raises `KeyError` when the key is
absent; the three ratio expressions are evaluated in source order, and the
returned dict rounds each value to two decimals. -/
def calculate_ratios (data : CompanyRecord) : Except PyError RatioSet :=
  match data.financials.current_year with
  | none => Except.error (PyError.keyError "current_year")
  | some curr => do
    let liquidity ← liquidityStep curr
    let margin ← marginStep curr
    let growth ← growthStep curr data.financials.previous_year
    Except.ok ⟨round2 liquidity, round2 margin, round2 growth⟩

/-- A JSON-ish value as far as the report schema can distinguish it:
a string, an integer, or anything else (the mistyped case). -/
inductive JVal where
  | jstr (s : String)
  | jint (n : ℤ)
  | jother
deriving DecidableEq

/-- The four entries of the provider's decoded response that the
`CreditReport` pydantic model inspects; each may be absent or mistyped. -/
structure RawResponse where
  summary : Option JVal
  risk_score : Option JVal
  final_verdict : Option JVal
  rationale : Option JVal
deriving DecidableEq

/-- The `CreditReport` pydantic model, lines 21-29 of the source: four plain
typed fields.  The score range and the verdict wording appear only in the
`Field(description=...)` texts, which pydantic does not enforce. -/
structure CreditReport where
  summary : String
  risk_score : ℤ
  final_verdict : String
  rationale : String
deriving DecidableEq

/-- The validation failure of the structured-report contract, capturing the
offending raw response. -/
structure SchemaValidationError where
  raw : RawResponse
deriving DecidableEq

/-- The coercion performed by `PydanticOutputParser(pydantic_object=CreditReport)`:
each of the four declared fields must be present with its declared type;
nothing else about the values is checked. -/
def parseCreditReport (raw : RawResponse) : Except SchemaValidationError CreditReport :=
  match raw.summary, raw.risk_score, raw.final_verdict, raw.rationale with
  | some (JVal.jstr s), some (JVal.jint n), some (JVal.jstr v), some (JVal.jstr t) =>
      Except.ok ⟨s, n, v, t⟩
  | _, _, _, _ => Except.error ⟨raw⟩

/-- Modelled from the spec: the three allowed verdict values of §3's
enumeration (`APPROVE`, `DENY`, `WITH_CONDITIONS`).  The code declares no
such enumeration; this definition exists only to compare the spec's contract
with the code's behaviour. -/
def specAllowedVerdicts : List String := ["APPROVE", "DENY", "WITH_CONDITIONS"]

/-- One CSV cell: the flattened dict's values are strings, rationals
(the ratios) or integers (the score). -/
inductive CellValue where
  | s (v : String)
  | q (v : ℚ)
  | i (v : ℤ)
deriving DecidableEq

/-- One flattened analysis result: the ordered key/value dict returned by
`analyze_company` (lines 108-117). -/
abbrev Row := List (String × CellValue)

/-- A failure of one analysis: a `KeyError` from the ratio engine or a
schema-validation failure from the output coercion. -/
inductive AnalysisError where
  | py (e : PyError)
  | schema (e : SchemaValidationError)
deriving DecidableEq

/-- The eight keys of the dict literal at lines 108-117, in source order. -/
def analysisRowKeys : List String :=
  ["Data_Analise", "Empresa", "Liquidez", "Margem_Percent",
   "Crescimento_Percent", "Score_Risco", "Veredito", "Justificativa_IA"]

/-- Retag the error of a fallible computation (the exception kept by the
batch handler keeps its identity, only its classification changes). -/
def mapErr {ε ε' α : Type} (f : ε → ε') : Except ε α → Except ε' α
  | Except.ok a => Except.ok a
  | Except.error e => Except.error (f e)

/-- The analyst step, lines 59-117 of the source: read the name, run the
ratio engine, query the reasoning provider (modelled as a function from the
record and its ratios to a decoded raw response), coerce the response through
the report schema, and flatten everything into the fixed dict literal.
The `summary` field of the report is not placed in the dict. -/
def analyze_company (now : String) (provider : CompanyRecord → RatioSet → RawResponse)
    (data : CompanyRecord) : Except AnalysisError Row := do
  let name := data.company_info.name
  let ratios ← mapErr AnalysisError.py (calculate_ratios data)
  let report ← mapErr AnalysisError.schema (parseCreditReport (provider data ratios))
  Except.ok
    [("Data_Analise", CellValue.s now),
     ("Empresa", CellValue.s name),
     ("Liquidez", CellValue.q ratios.liquidity),
     ("Margem_Percent", CellValue.q ratios.margin),
     ("Crescimento_Percent", CellValue.q ratios.growth),
     ("Score_Risco", CellValue.i report.risk_score),
     ("Veredito", CellValue.s report.final_verdict),
     ("Justificativa_IA", CellValue.s report.rationale)]

/-- The batch loop of `run_batch_pipeline` (lines 136-145): each file is
analysed inside a `try`, successes are appended to `results` in input order,
and any failure is turned into a printed diagnostic for that file and the
loop continues. -/
def processBatch {σ ε : Type} (analyze : σ → Except ε Row) : List σ → List Row × List (σ × ε)
  | [] => ([], [])
  | f :: fs =>
    match analyze f with
    | Except.ok r => (r :: (processBatch analyze fs).1, (processBatch analyze fs).2)
    | Except.error e => ((processBatch analyze fs).1, (f, e) :: (processBatch analyze fs).2)

/-- The consolidated CSV: a header row plus the data rows. -/
structure ConsolidatedReport where
  header : List String
  rows : List Row
deriving DecidableEq

/-- Lines 148-153: the CSV is written only when `results` is non-empty, with
`fieldnames = results[0].keys()` as the header. -/
def emitReport : List Row → Option ConsolidatedReport
  | [] => none
  | r :: rs => some ⟨r.map Prod.fst, r :: rs⟩

/-- Line 156: the `"Nenhum dado foi processado"` branch, taken exactly when
no result accumulated. -/
def nothingProcessedSignal (results : List Row) : Bool := results.isEmpty

/-- The whole of `run_batch_pipeline` after file discovery: run the loop,
then either emit the report or the nothing-processed signal. -/
def run_batch_pipeline {σ ε : Type} (analyze : σ → Except ε Row) (files : List σ) :
    Option ConsolidatedReport × List (σ × ε) × Bool :=
  let out := processBatch analyze files
  (emitReport out.1, out.2, nothingProcessedSignal out.1)

/-! Basic lemmas about the embedded operations. -/

@[simp] theorem bind_ok_eq {ε α β : Type} (a : α) (f : α → Except ε β) :
    (Except.ok a : Except ε α) >>= f = f a := rfl

@[simp] theorem bind_error_eq {ε α β : Type} (e : ε) (f : α → Except ε β) :
    (Except.error e : Except ε α) >>= f = Except.error e := rfl

@[simp] theorem mapErr_ok {ε ε' α : Type} (f : ε → ε') (a : α) :
    mapErr f (Except.ok a : Except ε α) = Except.ok a := rfl

@[simp] theorem mapErr_error {ε ε' α : Type} (f : ε → ε') (e : ε) :
    mapErr f (Except.error e : Except ε α) = Except.error (f e) := rfl

theorem ratFloor_intCast (n : ℤ) : ratFloor (n : ℚ) = n := by
  rw [ratFloor_eq_floor, Int.floor_intCast]

theorem roundHalfEven_intCast (n : ℤ) : roundHalfEven (n : ℚ) = n := by
  unfold roundHalfEven
  rw [ratFloor_intCast, sub_self, if_neg (by norm_num), ratFloor_eq_floor, add_comm,
    Int.floor_add_int]
  norm_num

theorem round2_round2 (q : ℚ) : round2 (round2 q) = round2 q := by
  unfold round2
  rw [div_mul_cancel₀ _ (by norm_num : (100 : ℚ) ≠ 0), roundHalfEven_intCast]

theorem round2_zero : round2 0 = 0 := by with_unfolding_all decide

/-- Rounding every field of a `RatioSet` once more. -/
def roundRatioSet (r : RatioSet) : RatioSet :=
  ⟨round2 r.liquidity, round2 r.margin, round2 r.growth⟩

theorem calculate_ratios_some (data : CompanyRecord) (c : YearRecord)
    (h : data.financials.current_year = some c) :
    calculate_ratios data =
      (liquidityStep c >>= fun liquidity =>
        marginStep c >>= fun margin =>
          growthStep c data.financials.previous_year >>= fun growth =>
            Except.ok ⟨round2 liquidity, round2 margin, round2 growth⟩) := by
  unfold calculate_ratios
  rw [h]

theorem liquidityStep_nonpos (c : YearRecord) (h : c.current_liabilities.getD 0 ≤ 0) :
    liquidityStep c = Except.ok 0 := by
  unfold liquidityStep
  rw [if_neg (not_lt.mpr h)]

theorem liquidityStep_pos (c : YearRecord) (a : ℚ) (ha : c.current_assets = some a)
    (h : 0 < c.current_liabilities.getD 0) :
    liquidityStep c = Except.ok (a / c.current_liabilities.getD 0) := by
  unfold liquidityStep
  rw [if_pos h, ha]

theorem liquidityStep_ok_of (c : YearRecord)
    (h : 0 < c.current_liabilities.getD 0 → c.current_assets.isSome) :
    ∃ l, liquidityStep c = Except.ok l := by
  unfold liquidityStep
  by_cases hp : c.current_liabilities.getD 0 > 0
  · rw [if_pos hp]
    cases ha : c.current_assets with
    | some a => exact ⟨a / c.current_liabilities.getD 0, rfl⟩
    | none => rw [ha] at h; simp at h; exact absurd hp (by simpa using h)
  · rw [if_neg hp]
    exact ⟨0, rfl⟩

theorem marginStep_ok_of (c : YearRecord)
    (h : 0 < c.revenue.getD 0 → c.net_income.isSome) :
    ∃ m, marginStep c = Except.ok m := by
  unfold marginStep
  by_cases hp : c.revenue.getD 0 > 0
  · rw [if_pos hp]
    cases ha : c.net_income with
    | some ni => exact ⟨ni / c.revenue.getD 0 * 100, rfl⟩
    | none => rw [ha] at h; simp at h; exact absurd hp (by simpa using h)
  · rw [if_neg hp]
    exact ⟨0, rfl⟩

theorem growthStep_ok_of (c : YearRecord) (prev : Option YearRecord)
    (h : 0 < prevRevenueOf prev → c.revenue.isSome) :
    ∃ g, growthStep c prev = Except.ok g := by
  unfold growthStep
  by_cases hp : prevRevenueOf prev > 0
  · rw [if_pos hp]
    cases ha : c.revenue with
    | some cr => exact ⟨(cr - prevRevenueOf prev) / prevRevenueOf prev * 100, rfl⟩
    | none => rw [ha] at h; simp at h; exact absurd hp (by simpa using h)
  · rw [if_neg hp]
    exact ⟨0, rfl⟩

theorem calculate_ratios_ok_elim (data : CompanyRecord) (c : YearRecord) (r : RatioSet)
    (h : data.financials.current_year = some c)
    (hr : calculate_ratios data = Except.ok r) :
    ∃ l m g, liquidityStep c = Except.ok l ∧ marginStep c = Except.ok m ∧
      growthStep c data.financials.previous_year = Except.ok g ∧
      r = ⟨round2 l, round2 m, round2 g⟩ := by
  rw [calculate_ratios_some data c h] at hr
  cases hl : liquidityStep c with
  | error e => rw [hl] at hr; simp at hr
  | ok l =>
    rw [hl] at hr
    simp only [bind_ok_eq] at hr
    cases hm : marginStep c with
    | error e => rw [hm] at hr; simp at hr
    | ok m =>
      rw [hm] at hr
      simp only [bind_ok_eq] at hr
      cases hg : growthStep c data.financials.previous_year with
      | error e => rw [hg] at hr; simp at hr
      | ok g =>
        rw [hg] at hr
        simp only [bind_ok_eq] at hr
        exact ⟨l, m, g, rfl, rfl, rfl, (Except.ok.inj hr).symm⟩

theorem liquidityStep_pos_elim (c : YearRecord) (l : ℚ)
    (hpos : 0 < c.current_liabilities.getD 0)
    (hl : liquidityStep c = Except.ok l) :
    ∃ a, c.current_assets = some a ∧ l = a / c.current_liabilities.getD 0 := by
  unfold liquidityStep at hl
  rw [if_pos hpos] at hl
  cases ha : c.current_assets with
  | none => rw [ha] at hl; exact absurd hl (by simp)
  | some a =>
    rw [ha] at hl
    exact ⟨a, rfl, (Except.ok.inj hl).symm⟩

theorem growthStep_nonpos (c : YearRecord) (prev : Option YearRecord)
    (h : prevRevenueOf prev ≤ 0) : growthStep c prev = Except.ok 0 := by
  unfold growthStep
  rw [if_neg (not_lt.mpr h)]

theorem growthStep_pos_elim (c : YearRecord) (prev : Option YearRecord) (g : ℚ)
    (hpos : 0 < prevRevenueOf prev)
    (hg : growthStep c prev = Except.ok g) :
    ∃ cr, c.revenue = some cr ∧
      g = (cr - prevRevenueOf prev) / prevRevenueOf prev * 100 := by
  unfold growthStep at hg
  rw [if_pos hpos] at hg
  cases ha : c.revenue with
  | none => rw [ha] at hg; exact absurd hg (by simp)
  | some cr =>
    rw [ha] at hg
    exact ⟨cr, rfl, (Except.ok.inj hg).symm⟩

/-! Concrete inputs, taken from the spec's end-to-end scenarios and from the
boundary cases the claims are about. -/

/-- Scenario 1 of §8: assets 200, liabilities 100, revenue 1000, income 100. -/
def yr1 : YearRecord := ⟨some 200, some 100, some 1000, some 100⟩

def exRecord1 : CompanyRecord := ⟨⟨"ACME", some "tech"⟩, ⟨some yr1, none⟩⟩

/-- The engine's output on scenario 1: liquidity 2.0, margin 10.0, growth 0. -/
def ratios1 : RatioSet := ⟨2, 10, 0⟩

/-- Scenario 2 of §8: same current year, previous revenue 800. -/
def prevYear2 : YearRecord := ⟨none, none, some 800, none⟩

def exRecord2 : CompanyRecord := ⟨⟨"ACME2", none⟩, ⟨some yr1, some prevYear2⟩⟩

/-- The engine's output on scenario 2: growth (1000-800)/800*100 = 25. -/
def ratios2 : RatioSet := ⟨2, 10, 25⟩

/-- Positive liabilities but no `current_assets` key: the direct lookup at
line 45 of the source raises. -/
def exMissingAssets : CompanyRecord :=
  ⟨⟨"NoAssets", none⟩, ⟨some ⟨none, some 100, none, none⟩, none⟩⟩

/-- Zero liabilities (present), positive revenue, but no `net_income` key:
the direct lookup at line 46 raises before any liquidity is returned. -/
def exZeroLiab : CompanyRecord :=
  ⟨⟨"ZeroLiab", none⟩, ⟨some ⟨some 500, some 0, some 100, none⟩, none⟩⟩

/-- A previous year with positive revenue but no current `revenue` key: the
direct lookup at line 50 raises. -/
def exMissingRevenue : CompanyRecord :=
  ⟨⟨"NoRevenue", none⟩, ⟨some ⟨none, none, none, none⟩, some prevYear2⟩⟩

/-- A record whose financials lack `current_year` entirely. -/
def exNoCurrentYear : CompanyRecord := ⟨⟨"NoCY", none⟩, ⟨none, some prevYear2⟩⟩

/-- Same financials as `exRecord1`, different company info. -/
def exRecordRenamed : CompanyRecord := ⟨⟨"OtherName", none⟩, ⟨some yr1, none⟩⟩

/-! Claim C1. -/

/-- C1 (corrected), counterexample: the ratio engine is not total on records
with a `current_year`: with liabilities 100 present and `current_assets`
absent, `curr["current_assets"]` raises a `KeyError` instead of treating the
missing field as 0. -/
theorem calculate_ratios_raises_on_missing_assets :
    calculate_ratios exMissingAssets = Except.error (PyError.keyError "current_assets") := by
  with_unfolding_all rfl

/-- C1 (amended): the engine returns a `RatioSet` for every record with a
`current_year` provided the directly-indexed fields are present where their
guards demand them: `current_assets` when liabilities > 0, `net_income` when
revenue > 0, and `revenue` when the previous year's revenue is positive.
Absent `current_liabilities` and absent `revenue` are read with default 0 in
the guards, and zero-valued fields never fault. -/
theorem calculate_ratios_total_on_guarded_presence (rec : CompanyRecord) (c : YearRecord)
    (hc : rec.financials.current_year = some c)
    (hassets : 0 < c.current_liabilities.getD 0 → c.current_assets.isSome)
    (hincome : 0 < c.revenue.getD 0 → c.net_income.isSome)
    (hrev : 0 < prevRevenueOf rec.financials.previous_year → c.revenue.isSome) :
    ∃ r, calculate_ratios rec = Except.ok r := by
  obtain ⟨l, hl⟩ := liquidityStep_ok_of c hassets
  obtain ⟨m, hm⟩ := marginStep_ok_of c hincome
  obtain ⟨g, hg⟩ := growthStep_ok_of c rec.financials.previous_year hrev
  refine ⟨⟨round2 l, round2 m, round2 g⟩, ?_⟩
  rw [calculate_ratios_some rec c hc, hl]
  simp only [bind_ok_eq]
  rw [hm]
  simp only [bind_ok_eq]
  rw [hg]
  simp only [bind_ok_eq]

/-- Witness for C1's amended theorem at scenario 1. -/
theorem calculate_ratios_total_witness : ∃ r, calculate_ratios exRecord1 = Except.ok r :=
  calculate_ratios_total_on_guarded_presence exRecord1 yr1 rfl
    (fun _ => rfl) (fun _ => rfl) (fun _ => rfl)

/-! Claim C4. -/

/-- C4 (corrected), counterexample: a record without `financials.current_year`
fails with the generic dictionary-lookup fault `KeyError("current_year")` —
the very same error constructor raised for any other absent key (here
`net_income`) — and no distinct `MalformedInputError` exists anywhere in the
code. -/
theorem missing_current_year_generic_keyError :
    calculate_ratios exNoCurrentYear = Except.error (PyError.keyError "current_year") ∧
    calculate_ratios exZeroLiab = Except.error (PyError.keyError "net_income") :=
  ⟨rfl, by with_unfolding_all rfl⟩

/-- C4 (amended): every record whose financials lack `current_year` makes the
engine (and hence the analyst step) fail with the generic
`KeyError("current_year")`, which the batch loop catches with its blanket
`except Exception` handler; there is no distinct `MalformedInputError`. -/
theorem missing_current_year_yields_keyError (rec : CompanyRecord)
    (h : rec.financials.current_year = none) :
    calculate_ratios rec = Except.error (PyError.keyError "current_year") := by
  unfold calculate_ratios
  rw [h]

/-- Witness for C4's amended theorem. -/
theorem missing_current_year_yields_keyError_witness :
    calculate_ratios exNoCurrentYear = Except.error (PyError.keyError "current_year") :=
  missing_current_year_yields_keyError exNoCurrentYear rfl

/-! Claim C6. -/

/-- C6 (corrected), counterexample: the claim promises `liquidity = 0` for
every record with `current_liabilities = 0`, but on such a record with
positive revenue and no `net_income` key the engine raises instead of
returning any `RatioSet`. -/
theorem liquidity_claim_fails_on_missing_net_income :
    calculate_ratios exZeroLiab = Except.error (PyError.keyError "net_income") := by
  with_unfolding_all rfl

/-- C6 (amended): whenever the engine does return a `RatioSet`, its liquidity
is 0 if liabilities ≤ 0 and `round2 (current_assets / current_liabilities)`
otherwise; the division is guarded, so no division fault is possible. -/
theorem liquidity_formula_on_success (rec : CompanyRecord) (c : YearRecord) (r : RatioSet)
    (hc : rec.financials.current_year = some c)
    (hok : calculate_ratios rec = Except.ok r) :
    (c.current_liabilities.getD 0 ≤ 0 → r.liquidity = 0) ∧
    (0 < c.current_liabilities.getD 0 →
      ∃ a, c.current_assets = some a ∧
        r.liquidity = round2 (a / c.current_liabilities.getD 0)) := by
  obtain ⟨l, m, g, hl, hm, hg, hr⟩ := calculate_ratios_ok_elim rec c r hc hok
  subst hr
  constructor
  · intro hle
    have h0 : Except.ok (0 : ℚ) = Except.ok (ε := PyError) l :=
      (liquidityStep_nonpos c hle).symm.trans hl
    have : l = 0 := (Except.ok.inj h0).symm
    simp [this, round2_zero]
  · intro hpos
    obtain ⟨a, ha, hla⟩ := liquidityStep_pos_elim c l hpos hl
    exact ⟨a, ha, by simp [hla]⟩

/-- Witness for C6's amended theorem at scenario 1. -/
theorem liquidity_formula_witness :
    (yr1.current_liabilities.getD 0 ≤ 0 → ratios1.liquidity = 0) ∧
    (0 < yr1.current_liabilities.getD 0 →
      ∃ a, yr1.current_assets = some a ∧
        ratios1.liquidity = round2 (a / yr1.current_liabilities.getD 0)) :=
  liquidity_formula_on_success exRecord1 yr1 ratios1 rfl (by with_unfolding_all rfl)

/-! Claim C7. -/

/-- C7 (corrected), counterexample: with a previous year of revenue 800
present, the growth computation reads `curr["revenue"]` directly; when the
current year lacks that key the engine raises instead of returning any
growth value (the claim would have it return a ratio set). -/
theorem growth_claim_fails_on_missing_revenue :
    calculate_ratios exMissingRevenue = Except.error (PyError.keyError "revenue") := by
  with_unfolding_all rfl

/-- C7 (amended): whenever the engine does return a `RatioSet`, its growth is
0 if the previous year is absent or its revenue is ≤ 0, and otherwise equals
`round2 ((current_revenue - previous_revenue) / previous_revenue * 100)`. -/
theorem growth_formula_on_success (rec : CompanyRecord) (c : YearRecord) (r : RatioSet)
    (hc : rec.financials.current_year = some c)
    (hok : calculate_ratios rec = Except.ok r) :
    (prevRevenueOf rec.financials.previous_year ≤ 0 → r.growth = 0) ∧
    (0 < prevRevenueOf rec.financials.previous_year →
      ∃ cr, c.revenue = some cr ∧
        r.growth = round2 ((cr - prevRevenueOf rec.financials.previous_year) /
          prevRevenueOf rec.financials.previous_year * 100)) := by
  obtain ⟨l, m, g, hl, hm, hg, hr⟩ := calculate_ratios_ok_elim rec c r hc hok
  subst hr
  constructor
  · intro hle
    have h0 : Except.ok (0 : ℚ) = Except.ok (ε := PyError) g :=
      (growthStep_nonpos c rec.financials.previous_year hle).symm.trans hg
    have : g = 0 := (Except.ok.inj h0).symm
    simp [this, round2_zero]
  · intro hpos
    obtain ⟨cr, ha, hga⟩ := growthStep_pos_elim c rec.financials.previous_year g hpos hg
    exact ⟨cr, ha, by simp [hga]⟩

/-- Witness for C7's amended theorem at scenario 2. -/
theorem growth_formula_witness :
    (prevRevenueOf exRecord2.financials.previous_year ≤ 0 → ratios2.growth = 0) ∧
    (0 < prevRevenueOf exRecord2.financials.previous_year →
      ∃ cr, yr1.revenue = some cr ∧
        ratios2.growth = round2 ((cr - prevRevenueOf exRecord2.financials.previous_year) /
          prevRevenueOf exRecord2.financials.previous_year * 100)) :=
  growth_formula_on_success exRecord2 yr1 ratios2 rfl (by with_unfolding_all rfl)

/-! Claim C8. -/

/-- Map over the success value of a fallible computation. -/
def mapOk {ε α β : Type} (f : α → β) : Except ε α → Except ε β
  | Except.ok a => Except.ok (f a)
  | Except.error e => Except.error e

/-- C8: two-decimal rounding is idempotent, and composing `calculate_ratios`
with a second rounding of its three outputs changes nothing. -/
theorem rounding_idempotent_on_engine (q : ℚ) (rec : CompanyRecord) :
    round2 (round2 q) = round2 q ∧
    mapOk roundRatioSet (calculate_ratios rec) = calculate_ratios rec := by
  refine ⟨round2_round2 q, ?_⟩
  cases hr : calculate_ratios rec with
  | error e => rfl
  | ok r =>
    cases hc : rec.financials.current_year with
    | none =>
      unfold calculate_ratios at hr
      rw [hc] at hr
      exact absurd hr (by simp)
    | some c =>
      obtain ⟨l, m, g, _, _, _, hrEq⟩ := calculate_ratios_ok_elim rec c r hc hr
      subst hrEq
      simp [mapOk, roundRatioSet, round2_round2]

/-! Claim C9. -/

/-- C9: the ratio engine reads only the record's `financials` (every access in
the source body is a read of `data["financials"]`); records agreeing on their
financials get identical results, and the pure embedding is faithful because
the source mutates nothing. -/
theorem engine_reads_only_financials (r1 r2 : CompanyRecord)
    (h : r1.financials = r2.financials) :
    calculate_ratios r1 = calculate_ratios r2 := by
  unfold calculate_ratios
  rw [h]

/-- Witness for C9: the same financials under different company names. -/
theorem engine_reads_only_financials_witness :
    calculate_ratios exRecord1 = calculate_ratios exRecordRenamed :=
  engine_reads_only_financials exRecord1 exRecordRenamed rfl

/-! Claim C2. -/

/-- A raw response on which the pydantic validation of `CreditReport`
succeeds: all four declared fields present with their declared types. -/
def wellTypedResponse (raw : RawResponse) : Prop :=
  (∃ s, raw.summary = some (JVal.jstr s)) ∧ (∃ n, raw.risk_score = some (JVal.jint n)) ∧
  (∃ v, raw.final_verdict = some (JVal.jstr v)) ∧ (∃ t, raw.rationale = some (JVal.jstr t))

def exRawGood : RawResponse :=
  ⟨some (JVal.jstr "stable firm"), some (JVal.jint 40), some (JVal.jstr "APPROVE"),
   some (JVal.jstr "good liquidity")⟩

/-- A response with `risk_score = 150` (outside [0, 100]) and an
out-of-enumeration verdict. -/
def exRawBad : RawResponse :=
  ⟨some (JVal.jstr "ok"), some (JVal.jint 150), some (JVal.jstr "MAYBE"),
   some (JVal.jstr "because")⟩

/-- C2 (corrected), counterexample: the parse accepts a report whose
`risk_score` is 150 and whose verdict is `MAYBE` — the `[0, 100]` bound and
the verdict enumeration live only in `Field(description=...)` texts, which
pydantic does not enforce. -/
theorem parseCreditReport_accepts_out_of_range :
    parseCreditReport exRawBad = Except.ok ⟨"ok", 150, "MAYBE", "because"⟩ ∧
    100 < (CreditReport.mk "ok" 150 "MAYBE" "because").risk_score ∧
    decide ((CreditReport.mk "ok" 150 "MAYBE" "because").final_verdict
      ∈ specAllowedVerdicts) = false :=
  ⟨rfl, by decide, by decide⟩

/-- C2 (amended): the parse fails with a `SchemaValidationError` capturing the
raw response exactly when one of the four fields is missing or mistyped, and
otherwise returns the fully populated report echoing those fields; the score
range and the verdict enumeration are not validated. -/
theorem parseCreditReport_checks_presence_and_types (raw : RawResponse) :
    (wellTypedResponse raw →
      ∃ r, parseCreditReport raw = Except.ok r ∧
        raw.summary = some (JVal.jstr r.summary) ∧
        raw.risk_score = some (JVal.jint r.risk_score) ∧
        raw.final_verdict = some (JVal.jstr r.final_verdict) ∧
        raw.rationale = some (JVal.jstr r.rationale)) ∧
    (¬ wellTypedResponse raw → parseCreditReport raw = Except.error ⟨raw⟩) := by
  obtain ⟨os, orisk, ov, ot⟩ := raw
  constructor
  · rintro ⟨⟨s, hs⟩, ⟨n, hn⟩, ⟨v, hv⟩, ⟨t, ht⟩⟩
    simp only at hs hn hv ht
    subst hs
    subst hn
    subst hv
    subst ht
    exact ⟨⟨s, n, v, t⟩, rfl, rfl, rfl, rfl, rfl⟩
  · intro hneg
    cases os with
    | none => rfl
    | some sj =>
      cases sj with
      | jint x => rfl
      | jother => rfl
      | jstr s =>
        cases orisk with
        | none => rfl
        | some nj =>
          cases nj with
          | jstr x => rfl
          | jother => rfl
          | jint n =>
            cases ov with
            | none => rfl
            | some vj =>
              cases vj with
              | jint x => rfl
              | jother => rfl
              | jstr v =>
                cases ot with
                | none => rfl
                | some tj =>
                  cases tj with
                  | jint x => rfl
                  | jother => rfl
                  | jstr t =>
                    exact absurd ⟨⟨s, rfl⟩, ⟨n, rfl⟩, ⟨v, rfl⟩, ⟨t, rfl⟩⟩ hneg

/-- Witness for C2's amended theorem on a conforming response. -/
theorem parseCreditReport_checks_witness :
    ∃ r, parseCreditReport exRawGood = Except.ok r ∧
      exRawGood.summary = some (JVal.jstr r.summary) ∧
      exRawGood.risk_score = some (JVal.jint r.risk_score) ∧
      exRawGood.final_verdict = some (JVal.jstr r.final_verdict) ∧
      exRawGood.rationale = some (JVal.jstr r.rationale) :=
  (parseCreditReport_checks_presence_and_types exRawGood).1
    ⟨⟨"stable firm", rfl⟩, ⟨40, rfl⟩, ⟨"APPROVE", rfl⟩, ⟨"good liquidity", rfl⟩⟩

/-! Claim C3 (with the row-shape lemma shared with C10). -/

/-- A provider whose report carries a recognisable summary text. -/
def exProvider (_ : CompanyRecord) (_ : RatioSet) : RawResponse :=
  ⟨some (JVal.jstr "THE_SUMMARY"), some (JVal.jint 40), some (JVal.jstr "APPROVE"),
   some (JVal.jstr "solid")⟩

/-- The row `analyze_company` produces on scenario 1 with `exProvider`. -/
def exRow1 : Row :=
  [("Data_Analise", CellValue.s "t"), ("Empresa", CellValue.s "ACME"),
   ("Liquidez", CellValue.q 2), ("Margem_Percent", CellValue.q 10),
   ("Crescimento_Percent", CellValue.q 0), ("Score_Risco", CellValue.i 40),
   ("Veredito", CellValue.s "APPROVE"), ("Justificativa_IA", CellValue.s "solid")]

theorem analyze_company_ok_elim (now : String)
    (provider : CompanyRecord → RatioSet → RawResponse) (data : CompanyRecord) (row : Row)
    (h : analyze_company now provider data = Except.ok row) :
    ∃ ratios report, calculate_ratios data = Except.ok ratios ∧
      parseCreditReport (provider data ratios) = Except.ok report ∧
      row = [("Data_Analise", CellValue.s now),
             ("Empresa", CellValue.s data.company_info.name),
             ("Liquidez", CellValue.q ratios.liquidity),
             ("Margem_Percent", CellValue.q ratios.margin),
             ("Crescimento_Percent", CellValue.q ratios.growth),
             ("Score_Risco", CellValue.i report.risk_score),
             ("Veredito", CellValue.s report.final_verdict),
             ("Justificativa_IA", CellValue.s report.rationale)] := by
  unfold analyze_company at h
  cases hr : calculate_ratios data with
  | error e => rw [hr] at h; simp [mapErr] at h
  | ok ratios =>
    rw [hr] at h
    simp only [mapErr_ok, bind_ok_eq] at h
    cases hp : parseCreditReport (provider data ratios) with
    | error e => rw [hp] at h; simp [mapErr] at h
    | ok report =>
      rw [hp] at h
      simp only [mapErr_ok, bind_ok_eq] at h
      exact ⟨ratios, report, rfl, hp, (Except.ok.inj h).symm⟩

/-- C3 (corrected), counterexample: the concrete consolidated row has eight
cells, and the provider's summary value appears in none of them, though the
claim demands nine fields with the summary among them. -/
theorem analysisRow_omits_summary :
    analyze_company "t" exProvider exRecord1 = Except.ok exRow1 ∧
    exRow1.length = 8 ∧
    decide (CellValue.s "THE_SUMMARY" ∈ exRow1.map Prod.snd) = false :=
  ⟨by with_unfolding_all rfl, rfl, by decide⟩

/-- C3 (amended): every row of the consolidated report has exactly eight
fields, in the stable order: analysis timestamp, company name, the three
ratio values, then risk_score, final_verdict and rationale; the report's
`summary` is omitted. -/
theorem analysisRow_field_order (now : String)
    (provider : CompanyRecord → RatioSet → RawResponse) (data : CompanyRecord) (row : Row)
    (h : analyze_company now provider data = Except.ok row) :
    row.map Prod.fst = analysisRowKeys ∧
    ∃ ratios report, calculate_ratios data = Except.ok ratios ∧
      parseCreditReport (provider data ratios) = Except.ok report ∧
      row = [("Data_Analise", CellValue.s now),
             ("Empresa", CellValue.s data.company_info.name),
             ("Liquidez", CellValue.q ratios.liquidity),
             ("Margem_Percent", CellValue.q ratios.margin),
             ("Crescimento_Percent", CellValue.q ratios.growth),
             ("Score_Risco", CellValue.i report.risk_score),
             ("Veredito", CellValue.s report.final_verdict),
             ("Justificativa_IA", CellValue.s report.rationale)] := by
  obtain ⟨ratios, report, h1, h2, h3⟩ := analyze_company_ok_elim now provider data row h
  subst h3
  exact ⟨rfl, ratios, report, h1, h2, rfl⟩

/-- Witness for C3's amended theorem at scenario 1. -/
theorem analysisRow_field_order_witness :
    exRow1.map Prod.fst = analysisRowKeys ∧
    ∃ ratios report, calculate_ratios exRecord1 = Except.ok ratios ∧
      parseCreditReport (exProvider exRecord1 ratios) = Except.ok report ∧
      exRow1 = [("Data_Analise", CellValue.s "t"),
             ("Empresa", CellValue.s exRecord1.company_info.name),
             ("Liquidez", CellValue.q ratios.liquidity),
             ("Margem_Percent", CellValue.q ratios.margin),
             ("Crescimento_Percent", CellValue.q ratios.growth),
             ("Score_Risco", CellValue.i report.risk_score),
             ("Veredito", CellValue.s report.final_verdict),
             ("Justificativa_IA", CellValue.s report.rationale)] :=
  analysisRow_field_order "t" exProvider exRecord1 exRow1 (by with_unfolding_all rfl)

/-! Claim C5. -/

/-- Success test on a fallible outcome (the `try` succeeding). -/
def isOkE {ε α : Type} : Except ε α → Bool
  | Except.ok _ => true
  | Except.error _ => false

theorem processBatch_counts {σ ε : Type} (analyze : σ → Except ε Row) (files : List σ) :
    (processBatch analyze files).1.length = (files.filter fun f => isOkE (analyze f)).length ∧
    (processBatch analyze files).1.length + (processBatch analyze files).2.length =
      files.length := by
  induction files with
  | nil => exact ⟨rfl, rfl⟩
  | cons f fs ih =>
    cases hf : analyze f with
    | ok r =>
      refine ⟨?_, ?_⟩ <;>
        simp only [processBatch, hf, List.filter_cons, List.length_cons]
      · simp [isOkE, ih.1]
      · have := ih.2
        omega
    | error e =>
      refine ⟨?_, ?_⟩ <;>
        simp only [processBatch, hf, List.filter_cons, List.length_cons]
      · simp [isOkE, ih.1]
      · have := ih.2
        omega

/-- C5: the loop is total and isolating — the successes list has exactly one
entry per succeeding item, the diagnostics list exactly one entry per failing
item (lengths sum to the input count), every emitted report's rows are
exactly the successes, and when no item succeeds no report is emitted and the
nothing-processed signal fires. -/
theorem batch_counts_and_empty_signal {σ ε : Type} (analyze : σ → Except ε Row)
    (files : List σ) :
    (processBatch analyze files).1.length = (files.filter fun f => isOkE (analyze f)).length ∧
    (processBatch analyze files).1.length + (processBatch analyze files).2.length =
      files.length ∧
    (∀ rep, (run_batch_pipeline analyze files).1 = some rep →
      rep.rows = (processBatch analyze files).1) ∧
    ((processBatch analyze files).1 = [] →
      (run_batch_pipeline analyze files).1 = none ∧
      nothingProcessedSignal (processBatch analyze files).1 = true) := by
  refine ⟨(processBatch_counts analyze files).1, (processBatch_counts analyze files).2, ?_, ?_⟩
  · intro rep h
    have hrep : emitReport (processBatch analyze files).1 = some rep := h
    cases hres : (processBatch analyze files).1 with
    | nil => rw [hres] at hrep; exact absurd hrep (by simp [emitReport])
    | cons r rs =>
      rw [hres] at hrep
      have : (⟨r.map Prod.fst, r :: rs⟩ : ConsolidatedReport) = rep := by
        simpa [emitReport] using hrep
      rw [← this]
  · intro h
    have h1 : (run_batch_pipeline analyze files).1 =
        emitReport (processBatch analyze files).1 := rfl
    rw [h1, h]
    exact ⟨rfl, rfl⟩

def exAnalyze (n : ℕ) : Except String Row :=
  if n = 0 then Except.ok exRow1 else Except.error "boom"

def exFailAnalyze (_ : ℕ) : Except String Row := Except.error "boom"

def exFiles : List ℕ := [0, 1, 2]

/-- Witness for C5 on a batch of three items with one success, and on an
all-failing batch for the empty case. -/
theorem batch_counts_and_empty_signal_witness :
    (processBatch exAnalyze exFiles).1.length =
      (exFiles.filter fun f => isOkE (exAnalyze f)).length ∧
    (processBatch exAnalyze exFiles).1.length + (processBatch exAnalyze exFiles).2.length = 3 ∧
    (run_batch_pipeline exFailAnalyze exFiles).1 = none ∧
    nothingProcessedSignal (processBatch exFailAnalyze exFiles).1 = true :=
  ⟨(batch_counts_and_empty_signal exAnalyze exFiles).1,
   (batch_counts_and_empty_signal exAnalyze exFiles).2.1,
   ((batch_counts_and_empty_signal exFailAnalyze exFiles).2.2.2 rfl).1,
   ((batch_counts_and_empty_signal exFailAnalyze exFiles).2.2.2 rfl).2⟩

/-! Claim C10. -/

/-- One loop iteration seen from the batch: decode the file (a decode failure
is its own error kind) and run the analyst step on the decoded record. -/
def pipelineItem {σ ε : Type} (now : String)
    (provider : CompanyRecord → RatioSet → RawResponse)
    (decode : σ → Except ε CompanyRecord) (f : σ) : Except (ε ⊕ AnalysisError) Row :=
  mapErr Sum.inl (decode f) >>= fun d => mapErr Sum.inr (analyze_company now provider d)

theorem analyze_company_keys (now : String)
    (provider : CompanyRecord → RatioSet → RawResponse) (data : CompanyRecord) (row : Row)
    (h : analyze_company now provider data = Except.ok row) :
    row.map Prod.fst = analysisRowKeys := by
  obtain ⟨ratios, report, _, _, h3⟩ := analyze_company_ok_elim now provider data row h
  subst h3
  rfl

theorem processBatch_rows_from {σ ε : Type} (g : σ → Except ε Row) (files : List σ) :
    ∀ row ∈ (processBatch g files).1, ∃ f, g f = Except.ok row := by
  induction files with
  | nil => intro row h; simp [processBatch] at h
  | cons f fs ih =>
    intro row h
    cases hf : g f with
    | ok r =>
      simp only [processBatch, hf] at h
      rcases List.mem_cons.mp h with h1 | h2
      · exact ⟨f, by rw [hf, h1]⟩
      · exact ih row h2
    | error e =>
      simp only [processBatch, hf] at h
      exact ih row h

/-- C10: every successful analysis row carries the same fixed eight keys in
the same order, so whenever the pipeline emits a consolidated report its
header (built from the first result's keys) is that key list and every data
row's keys equal the header. -/
theorem batch_rows_match_header {σ ε : Type} (now : String)
    (provider : CompanyRecord → RatioSet → RawResponse)
    (decode : σ → Except ε CompanyRecord) (files : List σ) (rep : ConsolidatedReport)
    (h : (run_batch_pipeline (pipelineItem now provider decode) files).1 = some rep) :
    rep.header = analysisRowKeys ∧ ∀ row ∈ rep.rows, row.map Prod.fst = rep.header := by
  have hkeys : ∀ row ∈ (processBatch (pipelineItem now provider decode) files).1,
      row.map Prod.fst = analysisRowKeys := by
    intro row hrow
    obtain ⟨f, hf⟩ := processBatch_rows_from (pipelineItem now provider decode) files row hrow
    unfold pipelineItem at hf
    cases hd : decode f with
    | error e => rw [hd] at hf; simp [mapErr] at hf
    | ok d =>
      rw [hd] at hf
      simp only [mapErr_ok, bind_ok_eq] at hf
      cases ha : analyze_company now provider d with
      | error e => rw [ha] at hf; exact absurd hf (by simp [mapErr])
      | ok row2 =>
        rw [ha] at hf
        have hr2 : row2 = row := by simpa [mapErr] using hf
        subst hr2
        exact analyze_company_keys now provider d row2 ha
  have hrep : emitReport (processBatch (pipelineItem now provider decode) files).1 =
      some rep := h
  cases hres : (processBatch (pipelineItem now provider decode) files).1 with
  | nil => rw [hres] at hrep; exact absurd hrep (by simp [emitReport])
  | cons r rs =>
    rw [hres] at hrep
    have hre : (⟨r.map Prod.fst, r :: rs⟩ : ConsolidatedReport) = rep := by
      simpa [emitReport] using hrep
    rw [hres] at hkeys
    rw [← hre]
    refine ⟨hkeys r (by simp), ?_⟩
    intro row hrow
    rw [hkeys row hrow, hkeys r (by simp)]

def exDecode (_ : Unit) : Except Unit CompanyRecord := Except.ok exRecord1

/-- Witness for C10 on a one-file batch. -/
theorem batch_rows_match_header_witness :
    (⟨analysisRowKeys, [exRow1]⟩ : ConsolidatedReport).header = analysisRowKeys ∧
    ∀ row ∈ (⟨analysisRowKeys, [exRow1]⟩ : ConsolidatedReport).rows,
      row.map Prod.fst = (⟨analysisRowKeys, [exRow1]⟩ : ConsolidatedReport).header :=
  batch_rows_match_header "t" exProvider exDecode [()] ⟨analysisRowKeys, [exRow1]⟩
    (by with_unfolding_all rfl)

end KYP
